import Mathlib

/-!
Shallow embedding of `src/attrs/ecomerce_example_attrs.py`.

Modelling choices:
- Python `float` values are modelled as exact rationals (`ℚ`); Python `int`
  values as `ℤ`.  Arguments whose runtime type matters (the attrs
  `validators.instance_of` checks) are passed as a tagged value `PyNum`.
- A failed construction is an `Except.error`: `ValueError` (the spec's
  "ValidationError" category) carries the exact f-string message built by
  `positive_number` / `percentage_value`; the `TypeError` raised by
  `attrs.validators.instance_of` is abstracted to the offending attribute
  name (its text comes from the attrs library, not from this repository).
- Python `list` objects have reference semantics; for the ownership claim a
  small store (`Store`) of list objects is used, where a `list`-valued field
  holds an index into the store.
-/

/-- A Python number together with its exact runtime type tag
(`isinstance` distinguishes `int` from `float`). -/
inductive PyNum where
  | int (n : ℤ)
  | float (q : ℚ)
deriving DecidableEq

/-- The two exception categories raised during `Product` construction:
`ValueError` from the custom validators (with the exact message) and
`TypeError` from `validators.instance_of` (abstracted to the attribute name). -/
inductive PyError where
  | valueError (msg : String)
  | typeError (attr : String)
deriving DecidableEq

/-- Message of `positive_number` (line 19-21 of the source):
`f"{class_name} {attribute.name} attribute must be greater then zero."`
(the source spells "then"). -/
def positive_number_msg (class_name attr : String) : String :=
  class_name ++ (" ") ++ attr ++ (" attribute must be greater then zero.")

/-- Message of `percentage_value` (line 28-30 of the source):
`f"{class_name} {attribute.name} attribute must be between 0 and 1."` -/
def percentage_value_msg (class_name attr : String) : String :=
  class_name ++ (" ") ++ attr ++ (" attribute must be between 0 and 1.")

/-- The `positive_number` validator: raises `ValueError` when `value <= 0`. -/
def positive_number (class_name attr : String) (value : ℚ) : Except PyError Unit :=
  if value ≤ 0 then .error (.valueError (positive_number_msg class_name attr)) else .ok ()

/-- The `percentage_value` validator: raises `ValueError` when
`not 0 < value < 1`. -/
def percentage_value (class_name attr : String) (value : ℚ) : Except PyError Unit :=
  if 0 < value ∧ value < 1 then .ok ()
  else .error (.valueError (percentage_value_msg class_name attr))

/-- A successfully constructed `Product` (all validators passed). -/
structure Product where
  name : String
  category : String
  shipping_weight : ℚ
  unit_price : ℤ
  tax_percent : ℚ
deriving DecidableEq

/-- `Product(...)`: attrs validates the fields in declaration order; for each
field the validator list runs left to right: `instance_of(float)` then
`positive_number` for `shipping_weight`, `instance_of(int)` then
`positive_number` for `unit_price`, `instance_of(float)` then
`percentage_value` for `tax_percent`.  The first failing validator raises, so
no partially constructed `Product` is ever produced. -/
def Product.construct (name category : String)
    (shipping_weight unit_price tax_percent : PyNum) : Except PyError Product :=
  match shipping_weight with
  | .int _ => .error (.typeError ("shipping_weight"))
  | .float sw =>
    match positive_number ("Product") ("shipping_weight") sw with
    | .error e => .error e
    | .ok _ =>
      match unit_price with
      | .float _ => .error (.typeError ("unit_price"))
      | .int up =>
        match positive_number ("Product") ("unit_price") (up : ℚ) with
        | .error e => .error e
        | .ok _ =>
          match tax_percent with
          | .int _ => .error (.typeError ("tax_percent"))
          | .float tp =>
            match percentage_value ("Product") ("tax_percent") tp with
            | .error e => .error e
            | .ok _ => .ok ⟨name, category, sw, up, tp⟩

/-- Python `str.lower`, restricted to the ASCII range that `Char.toLower`
handles (all strings in this repository are ASCII). -/
def pyLower (s : String) : String := ⟨s.data.map Char.toLower⟩

/-- The attrs-generated `Product.__eq__`: `name` and `category` are compared
through `str.lower` (`eq=str.lower`); `shipping_weight`, `unit_price` and
`tax_percent` carry `eq=False` and do not participate. -/
def Product.eq (p q : Product) : Bool :=
  (pyLower p.name == pyLower q.name) && (pyLower p.category == pyLower q.category)

/-- The invariant the validators enforce on a constructed `Product`. -/
def Product.Valid (p : Product) : Prop :=
  0 < p.shipping_weight ∧ 0 < p.unit_price ∧ 0 < p.tax_percent ∧ p.tax_percent < 1

instance (p : Product) : Decidable p.Valid := by
  unfold Product.Valid; infer_instance

/-- A calendar date (`datetime.date`). -/
structure Date where
  year : ℤ
  month : ℤ
  day : ℤ
deriving DecidableEq

/-- `Order`, value-level view: `products` holds the contents of the order's
product list. -/
structure Order where
  status : String
  creation_date : Date
  products : List Product

/-- `Order.add_item`: `self.products.append(product)` — value-level effect on
the list contents. -/
def Order.add_item (o : Order) (p : Product) : Order :=
  { o with products := o.products ++ [p] }

/-- `Order.calculate_sub_total`:
`sum((p.unit_price for p in self.products))` — Python `sum` is a left fold
starting from `0`. -/
def Order.calculate_sub_total (o : Order) : ℤ :=
  o.products.foldl (fun acc p => acc + p.unit_price) 0

/-- `Order.calculate_tax`:
`sum((p.unit_price * p.tax_percent for p in self.products))`. -/
def Order.calculate_tax (o : Order) : ℚ :=
  o.products.foldl (fun acc p => acc + (p.unit_price : ℚ) * p.tax_percent) 0

/-- `Order.calculate_total`:
`self.calculate_sub_total() + self.calculate_tax()`. -/
def Order.calculate_total (o : Order) : ℚ :=
  (o.calculate_sub_total : ℚ) + o.calculate_tax

/-- `Order.total_weight` (property):
`sum((p.shipping_weight for p in self.products))`. -/
def Order.total_weight (o : Order) : ℚ :=
  o.products.foldl (fun acc p => acc + p.shipping_weight) 0

/-- The class attribute captured by `creation_date: date = date.today()`
(line 55): the default expression is evaluated ONCE, when the class body of
`Order` runs at module load time, not at each construction. -/
structure OrderClass where
  creation_date_default : Date

/-- Executing the `Order` class body on a given day stores that day's
`date.today()` as the shared default. -/
def defineOrderClass (class_def_date : Date) : OrderClass :=
  ⟨class_def_date⟩

/-- `Order(status=...)` with `creation_date` omitted: the stored class-level
default is used; the current date at call time (`call_date`) is available to
the runtime but does not enter the result.  `products` defaults through
`field(factory=list)` to a fresh empty list. -/
def Order.constructNoDate (cls : OrderClass) (_call_date : Date) (status : String) : Order :=
  ⟨status, cls.creation_date_default, []⟩

/-- Repeated `add_item` calls, in call order. -/
def Order.addAll (o : Order) (ps : List Product) : Order :=
  ps.foldl Order.add_item o

/-- `banana` from `main` (values as written in the source; `0.5` and `0.07`
taken exactly). -/
def banana : Product :=
  ⟨"banana", "fruit", 5/10, 215, 7/100⟩

/-- `mango` from `main`. -/
def mango : Product :=
  ⟨"mango", "fruit", 2, 319, 11/100⟩

/-- `expensive_mango` from `main`. -/
def expensive_mango : Product :=
  ⟨"Mango", "Fruit", 4, 800, 20/100⟩

/-!
Reference-level view of the product list, for the ownership claim.  A Python
`list` object is mutable and shared by reference: `Order.products` stores a
reference, `list.append` mutates the referenced object in place, and a caller
that supplied the list (or otherwise holds the same reference) aliases it.
-/

/-- A store of Python list-of-`Product` objects; a reference is an index. -/
structure Store where
  lists : List (List Product)
deriving DecidableEq

/-- Dereference a list object. -/
def Store.read (s : Store) (r : Nat) : List Product :=
  (s.lists.getD r [])

/-- Replace the object a reference points to. -/
def Store.write (s : Store) (r : Nat) (v : List Product) : Store :=
  ⟨s.lists.set r v⟩

/-- `list.append(p)`: in-place mutation of the referenced list object. -/
def Store.append (s : Store) (r : Nat) (p : Product) : Store :=
  s.write r (s.read r ++ [p])

/-- `Order` as an object whose `products` field holds a reference to a list
object in the store. -/
structure OrderObj where
  status : String
  creation_date : Date
  products : Nat

/-- `Order.add_item` at the reference level: `self.products.append(product)`
mutates the referenced list in place; nothing is copied. -/
def OrderObj.add_item (o : OrderObj) (s : Store) (p : Product) : Store :=
  s.append o.products p

/-- `Order.calculate_sub_total` at the reference level: reads the list the
`products` reference currently points to. -/
def OrderObj.calculate_sub_total (o : OrderObj) (s : Store) : ℤ :=
  Order.calculate_sub_total ⟨o.status, o.creation_date, s.read o.products⟩


/-!
Helper lemmas (shared; not tied to a single claim).
-/

/-- Python `sum` (a left fold from an initial accumulator) equals the
mathematical sum of the mapped list, shifted by the accumulator. -/
lemma foldl_add_eq {M : Type} [AddCommMonoid M] (f : Product → M) :
    ∀ (l : List Product) (init : M),
      l.foldl (fun acc p => acc + f p) init = init + (l.map f).sum
  | [], init => by simp
  | p :: l, init => by
    rw [List.foldl_cons, foldl_add_eq f l (init + f p)]
    simp [add_assoc]

/-- `addAll` appends the given products, in order, after the existing ones. -/
lemma addAll_products : ∀ (ps : List Product) (o : Order),
    (Order.addAll o ps).products = o.products ++ ps
  | [], o => by simp [Order.addAll]
  | p :: ps, o => by
    have h := addAll_products ps (o.add_item p)
    simp [Order.addAll, List.foldl_cons] at h ⊢
    rw [h]
    simp [Order.add_item]

/-!
Claim theorems.
-/

/-- Claim C3: for every `Order`, `calculate_sub_total()` is the sum of
`unit_price` over the held products, `calculate_tax()` is the sum of
`unit_price * tax_percent`, and `calculate_total()` is
`calculate_sub_total() + calculate_tax()`. -/
theorem order_aggregates_are_sums (o : Order) :
    o.calculate_sub_total = (o.products.map Product.unit_price).sum ∧
    o.calculate_tax
      = (o.products.map (fun p => (p.unit_price : ℚ) * p.tax_percent)).sum ∧
    o.calculate_total = (o.calculate_sub_total : ℚ) + o.calculate_tax := by
  refine ⟨?_, ?_, rfl⟩
  · simpa using foldl_add_eq Product.unit_price o.products 0
  · simpa using foldl_add_eq (fun p => (p.unit_price : ℚ) * p.tax_percent) o.products 0

/-- Claim C4: an `Order` holding no products has
`calculate_sub_total() = 0`, `calculate_tax() = 0`, `calculate_total() = 0`
and `total_weight = 0` (Python returns the int `0` or the float `0.0`; both
denote the number `0`). -/
theorem empty_order_aggregates (status : String) (d : Date) :
    (Order.mk status d []).calculate_sub_total = 0 ∧
    (Order.mk status d []).calculate_tax = 0 ∧
    (Order.mk status d []).calculate_total = 0 ∧
    (Order.mk status d []).total_weight = 0 := by
  refine ⟨rfl, rfl, ?_, rfl⟩
  simp [Order.calculate_total, Order.calculate_sub_total, Order.calculate_tax]

/-- Claim C5: starting from an empty `Order`, `n` calls of `add_item` always
succeed, leave the products sequence with length `n`, and iterating it yields
the products in call order (each appended at the end). -/
theorem add_item_append_only (status : String) (d : Date) (ps : List Product) :
    (Order.addAll ⟨status, d, []⟩ ps).products = ps ∧
    (Order.addAll ⟨status, d, []⟩ ps).products.length = ps.length := by
  have h := addAll_products ps ⟨status, d, []⟩
  simp only [List.nil_append] at h
  exact ⟨h, by rw [h]⟩

/-- Claim C9: the order holding exactly `banana` and `mango` has
`calculate_sub_total() = 534`, `calculate_tax() = 50.14`,
`calculate_total() = 584.14` and `total_weight = 2.5`. -/
theorem scenario_banana_mango :
    (Order.addAll ⟨"openned", ⟨2026, 10, 12⟩, []⟩ [banana, mango]).calculate_sub_total = 534 ∧
    (Order.addAll ⟨"openned", ⟨2026, 10, 12⟩, []⟩ [banana, mango]).calculate_tax = 50.14 ∧
    (Order.addAll ⟨"openned", ⟨2026, 10, 12⟩, []⟩ [banana, mango]).calculate_total = 584.14 ∧
    (Order.addAll ⟨"openned", ⟨2026, 10, 12⟩, []⟩ [banana, mango]).total_weight = 2.5 := by
  refine ⟨by decide, ?_, ?_, ?_⟩ <;>
    norm_num [Order.addAll, Order.add_item, Order.calculate_tax, Order.calculate_total,
      Order.calculate_sub_total, Order.total_weight, banana, mango]

/-- Claim C1: with arguments of the declared runtime types, any
`shipping_weight <= 0`, `unit_price <= 0`, or `tax_percent` outside the open
interval (0,1) makes construction fail with a `ValueError` (the spec's
ValidationError); no `Product` is produced. -/
theorem construction_rejects_invalid_values (name category : String) (sw tp : ℚ) (up : ℤ)
    (h : sw ≤ 0 ∨ up ≤ 0 ∨ ¬(0 < tp ∧ tp < 1)) :
    ∃ msg, Product.construct name category (.float sw) (.int up) (.float tp)
      = .error (.valueError msg) := by
  by_cases h1 : sw ≤ 0
  · exact ⟨positive_number_msg ("Product") ("shipping_weight"),
      by simp [Product.construct, positive_number, h1]⟩
  · by_cases h2 : up ≤ 0
    · have h2' : (up : ℚ) ≤ 0 := by exact_mod_cast h2
      exact ⟨positive_number_msg ("Product") ("unit_price"),
        by simp [Product.construct, positive_number, h1, h2']⟩
    · have h3 : ¬(0 < tp ∧ tp < 1) := by tauto
      have h2' : ¬((up : ℚ) ≤ 0) := by
        simp only [not_le] at h2 ⊢; exact_mod_cast h2
      exact ⟨percentage_value_msg ("Product") ("tax_percent"),
        by simp [Product.construct, positive_number, percentage_value, h1, h2', h3]⟩

/-- Witness for C1 at `shipping_weight = -1.0`. -/
theorem construction_rejects_invalid_values_witness :
    ∃ msg, Product.construct ("banana") ("fruit") (.float (-1)) (.int 215) (.float (7/100))
      = .error (.valueError msg) :=
  construction_rejects_invalid_values ("banana") ("fruit") (-1) (7/100) 215
    (Or.inl (by norm_num))

/-- Claim C2: two `Product`s are equal exactly when `name` and `category`
match case-insensitively (through `str.lower`); the three excluded fields
never affect the comparison. -/
theorem product_equality_case_insensitive (p q : Product)
    (hp : p.Valid) (hq : q.Valid) :
    (Product.eq p q = true ↔
      (pyLower p.name = pyLower q.name ∧ pyLower p.category = pyLower q.category)) ∧
    (∀ w t w2 t2 : ℚ, ∀ u u2 : ℤ,
      Product.eq ⟨p.name, p.category, w, u, t⟩ ⟨q.name, q.category, w2, u2, t2⟩
        = Product.eq p q) := by
  constructor
  · simp [Product.eq]
  · intro w t w2 t2 u u2
    simp [Product.eq]

/-- Witness for C2: the spec example
`Product("Mango","Fruit",4.0,800,0.20) == Product("mango","fruit",2.0,319,0.11)`
evaluates to true. -/
theorem product_equality_case_insensitive_witness :
    Product.eq expensive_mango mango = true :=
  ((product_equality_case_insensitive expensive_mango mango
      (by norm_num [Product.Valid, expensive_mango])
      (by norm_num [Product.Valid, mango])).1).mpr
    (by decide)

/-- Claim C7 counterexample: a non-positive `shipping_weight` produces the
message "Product shipping_weight attribute must be greater then zero."
(spelled "then" in the source), which is not the claimed
"Product shipping_weight attribute must be greater than zero." -/
theorem validation_message_spelling_counterexample :
    Product.construct ("banana") ("fruit") (.float (-1)) (.int 215) (.float (7/100))
      = .error (.valueError ("Product shipping_weight attribute must be greater then zero.")) ∧
    ("Product shipping_weight attribute must be greater then zero." : String)
      ≠ ("Product shipping_weight attribute must be greater than zero.") := by
  exact ⟨rfl, by decide⟩

/-- Claim C7 (amended): every value-validation failure message names the
owning class `Product` and the offending attribute; a non-positive float
`shipping_weight` yields exactly
"Product shipping_weight attribute must be greater then zero." (as spelled in
the source), and similarly for `unit_price` and `tax_percent`. -/
theorem validation_messages (name category : String) (sw tp : ℚ) (up : ℤ) :
    (sw ≤ 0 → ∀ price tax : PyNum,
      Product.construct name category (.float sw) price tax
        = .error (.valueError
            ("Product shipping_weight attribute must be greater then zero."))) ∧
    (0 < sw → up ≤ 0 → ∀ tax : PyNum,
      Product.construct name category (.float sw) (.int up) tax
        = .error (.valueError
            ("Product unit_price attribute must be greater then zero."))) ∧
    (0 < sw → 0 < up → ¬(0 < tp ∧ tp < 1) →
      Product.construct name category (.float sw) (.int up) (.float tp)
        = .error (.valueError
            ("Product tax_percent attribute must be between 0 and 1."))) := by
  refine ⟨?_, ?_, ?_⟩
  · intro h1 price tax
    simp [Product.construct, positive_number, h1]
    rfl
  · intro h1 h2 tax
    have h1' : ¬(sw ≤ 0) := not_le.mpr h1
    have h2' : (up : ℚ) ≤ 0 := by exact_mod_cast h2
    simp [Product.construct, positive_number, h1', h2']
    rfl
  · intro h1 h2 h3
    have h1' : ¬(sw ≤ 0) := not_le.mpr h1
    have h2' : ¬((up : ℚ) ≤ 0) := by
      simp only [not_le]; exact_mod_cast h2
    simp [Product.construct, positive_number, percentage_value, h1', h2', h3]
    rfl

/-- Witness for the amended C7 at `shipping_weight = -1.0`. -/
theorem validation_messages_witness :
    Product.construct ("x") ("y") (.float (-1)) (.int 215) (.float (7/100))
      = .error (.valueError
          ("Product shipping_weight attribute must be greater then zero.")) :=
  (validation_messages ("x") ("y") (-1) (7/100) 215).1 (by norm_num)
    (.int 215) (.float (7/100))

/-- Claim C10: `instance_of` type checks run before the range checks: an
integer `shipping_weight` or `tax_percent` fails construction with a
`TypeError` even when positive, and a float `unit_price` fails even when
positive. -/
theorem type_checks_precede_range_checks (name category : String)
    (n m up : ℤ) (x sw tp : ℚ)
    (hn : 0 < n) (hx : 0 < x) (hsw : 0 < sw) (hup : 0 < up) (hm : 0 < m) :
    Product.construct name category (.int n) (.int up) (.float tp)
      = .error (.typeError ("shipping_weight")) ∧
    Product.construct name category (.float sw) (.float x) (.float tp)
      = .error (.typeError ("unit_price")) ∧
    Product.construct name category (.float sw) (.int up) (.int m)
      = .error (.typeError ("tax_percent")) := by
  have h1' : ¬(sw ≤ 0) := not_le.mpr hsw
  have h2' : ¬((up : ℚ) ≤ 0) := by
    simp only [not_le]; exact_mod_cast hup
  refine ⟨rfl, ?_, ?_⟩
  · simp [Product.construct, positive_number, h1']
  · simp [Product.construct, positive_number, h1', h2']

/-- Witness for C10 at `shipping_weight=1.0`, `unit_price=1`,
`tax_percent=0.5` and positive wrong-typed values. -/
theorem type_checks_precede_range_checks_witness :
    Product.construct ("a") ("b") (.int 2) (.int 1) (.float (1/2))
      = .error (.typeError ("shipping_weight")) ∧
    Product.construct ("a") ("b") (.float 1) (.float 3) (.float (1/2))
      = .error (.typeError ("unit_price")) ∧
    Product.construct ("a") ("b") (.float 1) (.int 1) (.int 4)
      = .error (.typeError ("tax_percent")) :=
  type_checks_precede_range_checks ("a") ("b") 2 4 1 3 1 (1/2)
    (by norm_num) (by norm_num) (by norm_num) (by norm_num) (by norm_num)

/-- Claim C6 (code evaluated at a failing input): with the module loaded on
2026-10-11 and `Order(status="openned")` constructed with `creation_date`
omitted on 2026-10-12, the resulting `creation_date` is 2026-10-11 — the
date captured when the class body ran, not the date of the construction
call. -/
theorem creation_date_is_class_definition_date :
    (Order.constructNoDate (defineOrderClass ⟨2026, 10, 11⟩) ⟨2026, 10, 12⟩
        ("openned")).creation_date = ⟨2026, 10, 11⟩ ∧
    (⟨2026, 10, 11⟩ : Date) ≠ (⟨2026, 10, 12⟩ : Date) := by
  exact ⟨rfl, by decide⟩

/-- Writing a list object and reading it back through the same reference. -/
lemma Store.read_write_self (s : Store) (r : Nat) (v : List Product)
    (h : r < s.lists.length) : (s.write r v).read r = v := by
  simp [Store.read, Store.write, List.getD_eq_getElem?_getD,
    List.getElem?_set_eq_of_lt v h]

/-- Claim C8 counterexample: the order's `products` field holds reference 0;
an external alias of the same list object appends `banana` in place, after
which the order's product sequence is `[banana]` (was `[]`) and its sub-total
is 215 (was 0); moreover `add_item` itself is the same in-place append, so the
external alias observes the product added through the order — nothing is
copied. -/
theorem order_list_aliasing_counterexample :
    (OrderObj.calculate_sub_total ⟨"openned", ⟨2026, 10, 12⟩, 0⟩ ⟨[[]]⟩ = 0) ∧
    (Store.read (Store.append ⟨[[]]⟩ 0 banana) 0 = [banana]) ∧
    (OrderObj.calculate_sub_total ⟨"openned", ⟨2026, 10, 12⟩, 0⟩
        (Store.append ⟨[[]]⟩ 0 banana) = 215) ∧
    (Store.read (OrderObj.add_item ⟨"openned", ⟨2026, 10, 12⟩, 0⟩ ⟨[[]]⟩ banana) 0
        = [banana]) := by
  exact ⟨rfl, rfl, rfl, rfl⟩

/-- Claim C8 (amended): `Order.products` is a reference to a list object
shared with any alias of that reference; `add_item` appends to the referenced
object in place (it is exactly `list.append` through the shared reference, no
copy), every alias observes the append, and an append performed through an
external alias changes the order's aggregates. -/
theorem add_item_appends_in_place (s : Store) (o : OrderObj) (p : Product) (r : Nat)
    (halias : r = o.products) (hr : o.products < s.lists.length) :
    OrderObj.add_item o s p = Store.append s r p ∧
    Store.read (OrderObj.add_item o s p) r = Store.read s o.products ++ [p] ∧
    OrderObj.calculate_sub_total o (Store.append s r p)
      = OrderObj.calculate_sub_total o s + p.unit_price := by
  subst halias
  have hread : Store.read (Store.append s o.products p) o.products
      = Store.read s o.products ++ [p] :=
    Store.read_write_self s o.products (Store.read s o.products ++ [p]) hr
  refine ⟨rfl, hread, ?_⟩
  simp [OrderObj.calculate_sub_total, Order.calculate_sub_total, hread,
    List.foldl_append]

/-- Witness for the amended C8: one list object, order referencing it,
alias 0, appending `banana`. -/
theorem add_item_appends_in_place_witness :
    OrderObj.add_item ⟨"openned", ⟨2026, 10, 12⟩, 0⟩ (⟨[[]]⟩ : Store) banana
      = Store.append ⟨[[]]⟩ 0 banana ∧
    Store.read (OrderObj.add_item ⟨"openned", ⟨2026, 10, 12⟩, 0⟩ ⟨[[]]⟩ banana) 0
      = Store.read ⟨[[]]⟩ 0 ++ [banana] ∧
    OrderObj.calculate_sub_total ⟨"openned", ⟨2026, 10, 12⟩, 0⟩
        (Store.append ⟨[[]]⟩ 0 banana)
      = OrderObj.calculate_sub_total ⟨"openned", ⟨2026, 10, 12⟩, 0⟩ ⟨[[]]⟩
          + banana.unit_price :=
  add_item_appends_in_place ⟨[[]]⟩ ⟨"openned", ⟨2026, 10, 12⟩, 0⟩ banana 0 rfl
    (by decide)
